import Mathlib

/-!
Shallow embedding of `frasco_eu_vat.py` (frascoweb/frasco-eu-vat).

Modelling choices:
- Python dicts become association lists read through `dlookup` (which returns
  the most recently inserted binding, matching dict assignment semantics).
- Python floats become `ℚ`; `round(x, n)` becomes `pyRound n x` (round half to
  even on the scaled value, as Python's `round` does).
- The three remote services (ECB eurofxref feed, TIC rate service, VIES
  validation service) and the feature configuration become an explicit `Env`
  record of oracles; a SOAP `WebFault` is the `none` answer of an oracle.
- The two module-level caches become an explicit `Globals` state threaded
  through every operation.
- Python exceptions become the `PyError` sum: `ServiceError(msg, code)` raised
  by the code itself, `KeyError` from a failed dict index, `UnboundLocalError`
  from reading a never-assigned local, `TypeError` from `None / 100`.
-/

/-- Association-list lookup with Python-dict semantics: the newest binding for
a key wins (inserts prepend). -/
def dlookup {κ α : Type} [BEq κ] (l : List (κ × α)) (k : κ) : Option α :=
  (l.find? (fun p => p.1 == k)).map Prod.snd

/-- Python dict assignment `d[k] = v`: prepend, so `dlookup` sees the new
binding first. -/
def dictInsert {κ α : Type} [BEq κ] (l : List (κ × α)) (k : κ) (v : α) :
    List (κ × α) :=
  (k, v) :: l

/-- Python's `str.upper()` on the ASCII data of the string (as a list-based
map, so that it reduces in the kernel). -/
def pyUpper (s : String) : String := ⟨s.data.map Char.toUpper⟩

/-- Python's `str.lower()` on the ASCII data of the string. -/
def pyLower (s : String) : String := ⟨s.data.map Char.toLower⟩

/-- Python's `s[0:n]` slice. -/
def pyTake (s : String) (n : Nat) : String := ⟨s.data.take n⟩

/-- Python's `s[n:]` slice. -/
def pyDrop (s : String) (n : Nat) : String := ⟨s.data.drop n⟩

/-- The fixed `EU_COUNTRIES` table: EU country code to settlement currency. -/
def EU_COUNTRIES : List (String × String) :=
  [("AT", "EUR"), ("BE", "EUR"), ("BG", "BGN"), ("DE", "EUR"), ("CY", "EUR"),
   ("CZ", "CZK"), ("DK", "DKK"), ("EE", "EUR"), ("ES", "EUR"), ("FI", "EUR"),
   ("FR", "EUR"), ("GB", "GBP"), ("GR", "EUR"), ("HR", "HRK"), ("HU", "HUF"),
   ("IE", "EUR"), ("IT", "EUR"), ("LT", "EUR"), ("LV", "EUR"), ("LU", "EUR"),
   ("MT", "EUR"), ("NL", "EUR"), ("PL", "PLN"), ("PT", "EUR"), ("RO", "RON"),
   ("SE", "SEK"), ("SI", "EUR"), ("SK", "EUR")]

/-- `is_eu_country`: `country_code and country_code.upper() in EU_COUNTRIES`.
The truthiness test on the string is the non-emptiness test. -/
def is_eu_country (country_code : String) : Bool :=
  (country_code != "") && (dlookup EU_COUNTRIES (pyUpper country_code)).isSome

/-- Round a rational to the nearest integer, ties to even (Python's rounding
rule for `round`). -/
def roundHalfEven (x : ℚ) : ℤ :=
  let f := x.floor
  if x - f < 1 / 2 then f
  else if x - f > 1 / 2 then f + 1
  else if f % 2 = 0 then f else f + 1

/-- Python's `round(x, ndigits)` on the exact-rational model of floats. -/
def pyRound (ndigits : Nat) (x : ℚ) : ℚ :=
  (roundHalfEven (x * 10 ^ ndigits) : ℚ) / 10 ^ ndigits

/-- A raised Python exception. -/
inductive PyError : Type
  | serviceError (message : String) (status : Nat)
  | keyError (key : String)
  | unboundLocal (name : String)
  | typeError (message : String)
deriving DecidableEq

/-- The remote services and the feature configuration seen by the code. A
`none` answer from `tic_getRates` / `vies_checkVat` is a SOAP `WebFault`. -/
structure Env : Type where
  today : Nat
  ecb_rates : List (String × ℚ)
  tic_getRates : String → Nat → Option (List (String × ℚ))
  vies_checkVat : String → String → Option Bool
  own_country : Option String
  vat_rate_option : String

/-- The two module-level caches `_exchange_rates_cache` and
`_vat_rates_cache`. -/
structure Globals : Type where
  exchange_rates_cache : List (Nat × List (String × ℚ))
  vat_rates_cache : List (String × List (String × ℚ))
deriving DecidableEq

/-- The empty initial state of the two caches. -/
def st0 : Globals := ⟨[], []⟩

/-- `fetch_exchange_rates`: return today's snapshot from the cache, otherwise
fetch the feed, build `{'EUR': 1.0}` plus one entry per parsed pair, cache it
under today. The third component records whether a network fetch happened. -/
def fetch_exchange_rates (today : Nat) (ecb : List (String × ℚ))
    (cache : List (Nat × List (String × ℚ))) :
    List (String × ℚ) × List (Nat × List (String × ℚ)) × Bool :=
  match dlookup cache today with
  | some r => (r, cache, false)
  | none =>
    let rates := ecb.foldl (fun m p => dictInsert m p.1 p.2) [("EUR", (1 : ℚ))]
    (rates, dictInsert cache today rates, true)

/-- `EUVATService.validate_vat_number`. The second component records whether
the VIES service was called. A `WebFault` (oracle answer `none`) is swallowed
and the function returns `False`. -/
def validate_vat_number (env : Env) (vat_number : String) :
    Except PyError Bool × Bool :=
  if vat_number.length < 3 then
    (.error (.serviceError "VAT number too short" 400), false)
  else
    match env.vies_checkVat (pyUpper (pyTake vat_number 2)) (pyDrop vat_number 2) with
    | none => (.ok false, true)
    | some valid => (.ok valid, true)

/-- `EUVATService.get_vat_rate`. On a cache miss the TIC service is called;
on a `WebFault` the exception is swallowed, `_vat_rates_cache[country_code]`
is still set to `{}`, and the loop over the never-assigned local `r` raises
`UnboundLocalError`. -/
def get_vat_rate (env : Env) (st : Globals) (country_code : String)
    (rate_type? : Option String) : Except PyError (Option ℚ) × Globals :=
  if is_eu_country country_code = false then
    (.error (.serviceError "Not an EU country" 404), st)
  else
    let rate_type := match rate_type? with
      | none => env.vat_rate_option
      | some s => if s = "" then env.vat_rate_option else s
    match dlookup st.vat_rates_cache country_code with
    | some entry => (.ok (dlookup entry (pyLower rate_type)), st)
    | none =>
      match env.tic_getRates country_code env.today with
      | none =>
        (.error (.unboundLocal "r"),
         { st with vat_rates_cache :=
             dictInsert st.vat_rates_cache country_code [] })
      | some rawRates =>
        let entry := rawRates.foldl
          (fun e p => dictInsert e (pyLower p.1) p.2) []
        (.ok (dlookup entry (pyLower rate_type)),
         { st with vat_rates_cache :=
             dictInsert st.vat_rates_cache country_code entry })

/-- `EUVATFeature.should_charge_vat`: charge iff the country is an EU country
and (the configured own country equals it, or the `eu_vat_number` argument is
falsy). The argument's truthiness is modelled as a `Bool`. -/
def should_charge_vat (own_country : Option String) (country_code : String)
    (eu_vat_number : Bool) : Bool :=
  is_eu_country country_code &&
    ((match own_country with
      | some oc => oc == country_code
      | none => false) || !eu_vat_number)

/-- `EUVATService.get_exchange_rate`. `EU_COUNTRIES[country_code]` is a plain
dict index and raises `KeyError` when the code is not literally a key. -/
def get_exchange_rate (env : Env) (st : Globals) (country_code : String)
    (src_currency : String) : Except PyError ℚ × Globals :=
  if is_eu_country country_code = false then
    (.error (.serviceError "Not an EU country" 404), st)
  else
    match dlookup EU_COUNTRIES country_code with
    | none => (.error (.keyError country_code), st)
    | some dest_currency =>
      let fetched := fetch_exchange_rates env.today env.ecb_rates
        st.exchange_rates_cache
      let rates := fetched.1
      let st' : Globals := { st with exchange_rates_cache := fetched.2.1 }
      if src_currency = dest_currency then (.ok 1, st')
      else if src_currency = "EUR" then
        match dlookup rates dest_currency with
        | some r => (.ok r, st')
        | none => (.error (.keyError dest_currency), st')
      else
        match dlookup rates src_currency with
        | none =>
          (.error (.serviceError
            "Can only use a currency listed in the ECB rates" 400), st')
        | some sr =>
          match dlookup rates dest_currency with
          | some dr => (.ok (pyRound 5 (1 / sr * dr)), st')
          | none => (.error (.keyError dest_currency), st')

/-- The flat record built by `EUVATService.check`; the four amount-derived
fields are `none` exactly when the corresponding dict keys are absent. -/
structure CheckResult : Type where
  country : String
  currency : String
  vat_rate : Option ℚ
  vat_number : Option String
  is_vat_number_valid : Bool
  should_charge_vat : Bool
  exchange_rate : ℚ
  src_currency : String
  amount : Option ℚ := none
  vat_amount : Option ℚ := none
  amount_with_vat : Option ℚ := none
  exchanged_amount_with_vat : Option ℚ := none
deriving DecidableEq

/-- `EUVATService.check`, in the evaluation order of the source: EU guard,
VAT-number validation, the dict literal (currency index, rate lookup, policy,
exchange rate), then the amount block, which only runs when `amount` is
truthy (present and nonzero) and divides `o['vat_rate']` (a possible `None`)
by 100 when charging. -/
def check (env : Env) (st : Globals) (country_code : String)
    (vat_number : Option String) (amount : Option ℚ) (src_currency : String) :
    Except PyError CheckResult × Globals :=
  if is_eu_country country_code = false then
    (.error (.serviceError "Not an EU country" 404), st)
  else
    let vnTruthy := match vat_number with
      | none => false
      | some s => s != ""
    let vres : Except PyError Bool :=
      if vnTruthy then (validate_vat_number env (vat_number.getD "")).1
      else .ok false
    match vres with
    | .error e => (.error e, st)
    | .ok is_vat_number_valid =>
      match dlookup EU_COUNTRIES country_code with
      | none => (.error (.keyError country_code), st)
      | some currency =>
        match get_vat_rate env st country_code none with
        | (.error e, st1) => (.error e, st1)
        | (.ok vat_rate, st1) =>
          let scv := should_charge_vat env.own_country country_code
            (vnTruthy && is_vat_number_valid)
          match get_exchange_rate env st1 country_code src_currency with
          | (.error e, st2) => (.error e, st2)
          | (.ok exchange_rate, st2) =>
            let o : CheckResult :=
              { country := country_code, currency := currency,
                vat_rate := vat_rate, vat_number := vat_number,
                is_vat_number_valid := is_vat_number_valid,
                should_charge_vat := scv, exchange_rate := exchange_rate,
                src_currency := src_currency }
            match amount with
            | none => (.ok o, st2)
            | some a =>
              if a = 0 then (.ok o, st2)
              else
                let rateE : Except PyError ℚ :=
                  if scv then
                    match vat_rate with
                    | none => .error (.typeError "unsupported operand type")
                    | some v => .ok (v / 100)
                  else .ok 0
                match rateE with
                | .error e => (.error e, st2)
                | .ok rate =>
                  let o' : CheckResult :=
                    { o with
                      amount := some a
                      vat_amount := some (pyRound 2 (a * rate))
                      amount_with_vat := some (a + a * rate)
                      exchanged_amount_with_vat :=
                        some (pyRound 2 ((a + a * rate) * exchange_rate)) }
                  (.ok o', st2)

/-- A concrete environment for witnesses: the feed lists USD at 2, the TIC
service answers a single standard rate of 20, the VIES service faults, no own
country is configured, the default rate type is "standard". -/
def env0 : Env :=
  { today := 0
    ecb_rates := [("USD", (2 : ℚ))]
    tic_getRates := fun _ _ => some [("standard", (20 : ℚ))]
    vies_checkVat := fun _ _ => none
    own_country := none
    vat_rate_option := "standard" }

/-- A variant of `env0` whose TIC rate service always raises a `WebFault`. -/
def envFault : Env := { env0 with tic_getRates := fun _ _ => none }

/-- A variant of `env0` whose VIES service answers that the number is valid. -/
def envViesTrue : Env := { env0 with vies_checkVat := fun _ _ => some true }

/-- The record returned by `check env0 st0 "FR" none (some 100) "EUR"` (the
amount fields are kept as the unevaluated formulas the code builds; they
evaluate to 20, 120 and 120). -/
def oW : CheckResult :=
  { country := "FR", currency := "EUR", vat_rate := some 20,
    vat_number := none, is_vat_number_valid := false,
    should_charge_vat := true, exchange_rate := 1, src_currency := "EUR",
    amount := some 100,
    vat_amount := some (pyRound 2 (100 * ((20 : ℚ) / 100))),
    amount_with_vat := some (100 + 100 * ((20 : ℚ) / 100)),
    exchanged_amount_with_vat :=
      some (pyRound 2 ((100 + 100 * ((20 : ℚ) / 100)) * 1)) }

/-- The cache state after `check env0 st0 "FR" none (some 100) "EUR"`. -/
def stW : Globals :=
  { exchange_rates_cache := [(0, [("USD", 2), ("EUR", 1)])],
    vat_rates_cache := [("FR", [("standard", 20)])] }

/-- Claim C1: `should_charge_vat` is true iff the country is an EU country and
(the configured own country equals the given code, or no validated VAT number
was supplied); in particular it is true for a same-country buyer even with a
valid VAT number, and false for an EU buyer in a different country with a
validated VAT number. -/
theorem c1_should_charge_vat_policy :
    (∀ (own : Option String) (cc : String) (v : Bool),
      should_charge_vat own cc v = true ↔
        (is_eu_country cc = true ∧ (own = some cc ∨ v = false)))
    ∧ should_charge_vat (some "DE") "DE" true = true
    ∧ should_charge_vat (some "FR") "IE" true = false := by
  refine ⟨?_, by decide, by decide⟩
  intro own cc v
  cases own <;>
    simp [should_charge_vat, Bool.and_eq_true, Bool.or_eq_true,
      Bool.not_eq_true', beq_iff_eq]

/-- Claim C8: an input shorter than 3 characters is rejected with the 400
`ServiceError` and no VIES network call is made. -/
theorem c8_short_vat_number_rejected (env : Env) (s : String)
    (h : s.length < 3) :
    validate_vat_number env s =
      (.error (.serviceError "VAT number too short" 400), false) := by
  unfold validate_vat_number
  simp [h]

/-- Witness for C8 at the spec's own scenario `"XX"`. -/
theorem c8_witness :
    "XX".length < 3
    ∧ validate_vat_number env0 "XX" =
        (.error (.serviceError "VAT number too short" 400), false) :=
  ⟨by decide, c8_short_vat_number_rejected env0 "XX" (by decide)⟩

/-- Claim C9: on inputs of length at least 3, a VIES `WebFault` yields `false`
(fail-closed), and otherwise the remote validity flag for (upper-cased
2-character prefix, remaining body) is returned. -/
theorem c9_validator_fail_closed (env : Env) (s : String)
    (h : 3 ≤ s.length) :
    (env.vies_checkVat (pyUpper (pyTake s 2)) (pyDrop s 2) = none →
      validate_vat_number env s = (.ok false, true))
    ∧ (∀ b : Bool,
        env.vies_checkVat (pyUpper (pyTake s 2)) (pyDrop s 2) = some b →
        validate_vat_number env s = (.ok b, true)) := by
  have hlt : ¬ s.length < 3 := by omega
  constructor
  · intro hf
    unfold validate_vat_number
    simp [hlt, hf]
  · intro b hb
    unfold validate_vat_number
    simp [hlt, hb]

/-- Witness for C9: a faulting VIES yields `false`, an affirming VIES yields
`true`, both with the network called. -/
theorem c9_witness :
    validate_vat_number env0 "XX123" = (.ok false, true)
    ∧ validate_vat_number envViesTrue "XX123" = (.ok true, true) :=
  ⟨(c9_validator_fail_closed env0 "XX123" (by decide)).1 rfl,
   (c9_validator_fail_closed envViesTrue "XX123" (by decide)).2 true rfl⟩

/-- Claim C3: for an EU country missing from the rate cache, a TIC `WebFault`
is swallowed and the cache-population loop then raises `UnboundLocalError` on
the never-assigned local `r` (after `_vat_rates_cache[country_code]` was set
to the empty dict). -/
theorem c3_vat_rate_webfault_crash (env : Env) (st : Globals)
    (cc : String) (rt? : Option String)
    (h1 : is_eu_country cc = true)
    (h2 : dlookup st.vat_rates_cache cc = none)
    (h3 : env.tic_getRates cc env.today = none) :
    get_vat_rate env st cc rt? =
      (.error (.unboundLocal "r"),
       { st with vat_rates_cache := dictInsert st.vat_rates_cache cc [] }) := by
  unfold get_vat_rate
  simp [h1, h2, h3]

/-- Witness for C3 at country `"DE"` with empty caches and a faulting TIC. -/
theorem c3_witness :
    is_eu_country "DE" = true
    ∧ dlookup st0.vat_rates_cache "DE" = none
    ∧ envFault.tic_getRates "DE" envFault.today = none
    ∧ get_vat_rate envFault st0 "DE" none =
        (.error (.unboundLocal "r"),
         { st0 with vat_rates_cache := dictInsert st0.vat_rates_cache "DE" [] }) :=
  ⟨by decide, rfl, rfl,
   c3_vat_rate_webfault_crash envFault st0 "DE" none (by decide) rfl rfl⟩

/-- Claim C6: when the source currency equals the destination currency
resolved from the country table, `get_exchange_rate` returns exactly `1`, for
every environment and cache state (so with no dependence on the fetched
snapshot values). -/
theorem c6_same_currency_returns_one (env : Env) (st : Globals)
    (cc src : String)
    (h1 : is_eu_country cc = true)
    (h2 : dlookup EU_COUNTRIES cc = some src) :
    (get_exchange_rate env st cc src).1 = .ok 1 := by
  unfold get_exchange_rate
  simp [h1, h2]

/-- Witness for C6 at `cc = "FR"`, `src = "EUR"`. -/
theorem c6_witness :
    is_eu_country "FR" = true
    ∧ dlookup EU_COUNTRIES "FR" = some "EUR"
    ∧ (get_exchange_rate env0 st0 "FR" "EUR").1 = .ok 1 :=
  ⟨by decide, by decide,
   c6_same_currency_returns_one env0 st0 "FR" "EUR" (by decide) (by decide)⟩

/-- Claim C5: for a source currency that is neither `"EUR"` nor the
destination, the cross-rate via EUR is returned, rounded to 5 decimal places
(`round(1 / rates[src] * rates[dest], 5)` in the source equals
`round(dest_rate / src_rate, 5)` exactly over `ℚ`), and a source currency
absent from the snapshot is rejected with the 400 `ServiceError`. -/
theorem c5_cross_rate_via_eur (env : Env) (st : Globals)
    (cc dest src : String)
    (h1 : is_eu_country cc = true)
    (h2 : dlookup EU_COUNTRIES cc = some dest)
    (h3 : src ≠ dest) (h4 : src ≠ "EUR") :
    (∀ sr dr : ℚ,
      dlookup (fetch_exchange_rates env.today env.ecb_rates
        st.exchange_rates_cache).1 src = some sr →
      dlookup (fetch_exchange_rates env.today env.ecb_rates
        st.exchange_rates_cache).1 dest = some dr →
      (get_exchange_rate env st cc src).1 = .ok (pyRound 5 (dr / sr)))
    ∧ (dlookup (fetch_exchange_rates env.today env.ecb_rates
        st.exchange_rates_cache).1 src = none →
      (get_exchange_rate env st cc src).1 =
        .error (.serviceError
          "Can only use a currency listed in the ECB rates" 400)) := by
  constructor
  · intro sr dr hsr hdr
    unfold get_exchange_rate
    simp [h1, h2, h3, h4, hsr, hdr, one_div_mul_eq_div, div_eq_inv_mul]
  · intro hnone
    unfold get_exchange_rate
    simp [h1, h2, h3, h4, hnone]

/-- Witness for C5: with `env0`'s feed, FR from USD gives
`round(1 / 2, 5) = 1/2`, and GBP (absent) is rejected. -/
theorem c5_witness :
    (get_exchange_rate env0 st0 "FR" "USD").1 =
      .ok (pyRound 5 ((1 : ℚ) / 2))
    ∧ (get_exchange_rate env0 st0 "FR" "GBP").1 =
      .error (.serviceError
        "Can only use a currency listed in the ECB rates" 400) :=
  ⟨(c5_cross_rate_via_eur env0 st0 "FR" "EUR" "USD" (by decide) (by decide)
      (by decide) (by decide)).1 2 1 (by decide) (by decide),
   (c5_cross_rate_via_eur env0 st0 "FR" "EUR" "GBP" (by decide) (by decide)
      (by decide) (by decide)).2 (by decide)⟩

/-- Folding dict inserts whose keys all differ from `k` does not change what
`dlookup` returns at `k`. -/
theorem dlookup_foldl_insert_of_ne {α : Type} (l : List (String × α))
    (k : String) (h : ∀ p ∈ l, p.1 ≠ k) (m : List (String × α)) :
    dlookup (l.foldl (fun m p => dictInsert m p.1 p.2) m) k = dlookup m k := by
  induction l generalizing m with
  | nil => rfl
  | cons p t ih =>
    have hp : p.1 ≠ k := h p (List.mem_cons_self p t)
    have ht : ∀ q ∈ t, q.1 ≠ k := fun q hq => h q (List.mem_cons_of_mem p hq)
    rw [List.foldl_cons, ih ht]
    simp [dlookup, dictInsert, List.find?_cons_of_neg, hp]

/-- Claim C7: calling `fetch_exchange_rates` again on the same date returns
the very snapshot and cache produced by the first call, with no network
fetch; and a snapshot actually built from the feed (fresh date, feed without
an explicit EUR entry) contains the implicit `EUR → 1` entry. -/
theorem c7_fetch_once_per_day (today : Nat) (ecb : List (String × ℚ))
    (cache : List (Nat × List (String × ℚ))) :
    fetch_exchange_rates today ecb
        (fetch_exchange_rates today ecb cache).2.1 =
      ((fetch_exchange_rates today ecb cache).1,
       (fetch_exchange_rates today ecb cache).2.1, false)
    ∧ ((dlookup cache today = none ∧ ∀ p ∈ ecb, p.1 ≠ "EUR") →
        dlookup (fetch_exchange_rates today ecb cache).1 "EUR" = some 1) := by
  constructor
  · match hc : dlookup cache today with
    | some r =>
      unfold fetch_exchange_rates
      simp [hc]
    | none =>
      unfold fetch_exchange_rates
      simp only [hc]
      simp [dlookup, dictInsert, List.find?_cons_of_pos]
  · rintro ⟨hc, heur⟩
    unfold fetch_exchange_rates
    simp only [hc]
    rw [dlookup_foldl_insert_of_ne ecb "EUR" heur]
    rfl

/-- Witness for C7 at date 0, a feed listing only USD, and an empty cache. -/
theorem c7_witness :
    fetch_exchange_rates 0 [("USD", (2 : ℚ))]
        (fetch_exchange_rates 0 [("USD", (2 : ℚ))] []).2.1 =
      ((fetch_exchange_rates 0 [("USD", (2 : ℚ))] []).1,
       (fetch_exchange_rates 0 [("USD", (2 : ℚ))] []).2.1, false)
    ∧ dlookup (fetch_exchange_rates 0 [("USD", (2 : ℚ))] []).1 "EUR" =
        some 1 :=
  ⟨(c7_fetch_once_per_day 0 [("USD", (2 : ℚ))] []).1,
   (c7_fetch_once_per_day 0 [("USD", (2 : ℚ))] []).2 ⟨rfl, by decide⟩⟩

/-- Claim C10: a code accepted by the case-insensitive `is_eu_country` but
absent as a literal key of `EU_COUNTRIES` (any lowercase or mixed-case EU
code) makes `get_exchange_rate` and `check` raise `KeyError` instead of
returning a result or a `ServiceError`. -/
theorem c10_lowercase_code_crashes (cc : String)
    (h1 : is_eu_country cc = true)
    (h2 : dlookup EU_COUNTRIES cc = none) :
    ∀ (env : Env) (st : Globals) (src : String) (amt : Option ℚ),
      (get_exchange_rate env st cc src).1 = .error (.keyError cc)
      ∧ (check env st cc none amt src).1 = .error (.keyError cc) := by
  intro env st src amt
  constructor
  · unfold get_exchange_rate
    simp [h1, h2]
  · unfold check
    simp [h1, h2]

/-- Witness for C10 at the spec's own example `"fr"`. -/
theorem c10_witness :
    is_eu_country "fr" = true
    ∧ dlookup EU_COUNTRIES "fr" = none
    ∧ (get_exchange_rate env0 st0 "fr" "EUR").1 = .error (.keyError "fr")
    ∧ (check env0 st0 "fr" none none "EUR").1 = .error (.keyError "fr") :=
  ⟨by decide, by decide,
   (c10_lowercase_code_crashes "fr" (by decide) (by decide) env0 st0 "EUR"
     none).1,
   (c10_lowercase_code_crashes "fr" (by decide) (by decide) env0 st0 "EUR"
     none).2⟩

/-- Counterexample to claim C2 as stated. `"XX"` is not in the EU table, yet
`validate_vat_number` on a number with prefix `"XX"` proceeds to the remote
call and returns a plain `False` instead of a "not EU country" error; and
`"fr"` is not in the table (only `"FR"` is), yet `get_exchange_rate` raises
`KeyError` (a crash) instead of the client error. -/
theorem c2_counterexample :
    is_eu_country "XX" = false
    ∧ validate_vat_number env0 "XX123" = (.ok false, true)
    ∧ dlookup EU_COUNTRIES "fr" = none
    ∧ (get_exchange_rate env0 st0 "fr" "USD").1 = .error (.keyError "fr") := by
  refine ⟨by decide, rfl, by decide, ?_⟩
  have h :=
    (c10_lowercase_code_crashes "fr" (by decide) (by decide) env0 st0 "USD"
      none).1
  exact h

/-- Claim C2 amended: for every country code rejected by `is_eu_country`
(i.e. whose upper-cased form is not in the table), the three entry points
that take a country code reject with the 404 "Not an EU country" error and
leave the caches unchanged; `validate_vat_number` performs no EU-membership
check at all. -/
theorem c2_amended_not_eu_rejected (cc : String)
    (h : is_eu_country cc = false) :
    ∀ (env : Env) (st : Globals) (rt? : Option String) (src : String)
      (vn : Option String) (amt : Option ℚ),
      get_vat_rate env st cc rt? =
        (.error (.serviceError "Not an EU country" 404), st)
      ∧ get_exchange_rate env st cc src =
        (.error (.serviceError "Not an EU country" 404), st)
      ∧ check env st cc vn amt src =
        (.error (.serviceError "Not an EU country" 404), st) := by
  intro env st rt? src vn amt
  refine ⟨?_, ?_, ?_⟩
  · unfold get_vat_rate
    simp [h]
  · unfold get_exchange_rate
    simp [h]
  · unfold check
    simp [h]

/-- Witness for the amended C2 at `"US"`. -/
theorem c2_amended_witness :
    is_eu_country "US" = false
    ∧ get_vat_rate env0 st0 "US" none =
        (.error (.serviceError "Not an EU country" 404), st0)
    ∧ get_exchange_rate env0 st0 "US" "EUR" =
        (.error (.serviceError "Not an EU country" 404), st0)
    ∧ check env0 st0 "US" none none "EUR" =
        (.error (.serviceError "Not an EU country" 404), st0) :=
  ⟨by decide,
   (c2_amended_not_eu_rejected "US" (by decide) env0 st0 none "EUR" none
     none).1,
   (c2_amended_not_eu_rejected "US" (by decide) env0 st0 none "EUR" none
     none).2.1,
   (c2_amended_not_eu_rejected "US" (by decide) env0 st0 none "EUR" none
     none).2.2⟩

/-- Counterexample to claim C4 as stated: `amount = 0.0` is a supplied
amount, but `if amount:` treats it as absent, so the result of
`check("FR", amount=0.0)` carries none of the four amount-derived fields —
in particular no `vat_amount = round(0 × rate, 2) = 0.0` entry. -/
theorem c4_counterexample :
    (check env0 st0 "FR" none (some 0) "EUR").1 =
      .ok { country := "FR", currency := "EUR", vat_rate := some 20,
            vat_number := none, is_vat_number_valid := false,
            should_charge_vat := true, exchange_rate := 1,
            src_currency := "EUR", amount := none, vat_amount := none,
            amount_with_vat := none, exchanged_amount_with_vat := none } := by
  rfl

/-- Claim C4 amended: for every `check` call on an EU country that returns a
result and whose supplied amount is nonzero, the result carries
`vat_amount = round(amount × rate, 2)`, the unrounded
`amount_with_vat = amount + amount × rate`, and
`exchanged_amount_with_vat = round((amount + amount × rate) × exchange_rate, 2)`,
where the effective rate is `vat_rate / 100` when VAT is charged and `0`
otherwise. -/
theorem c4_amended_amount_formulas (env : Env) (st : Globals) (cc : String)
    (vn : Option String) (a : ℚ) (src : String) (o : CheckResult)
    (st' : Globals)
    (h : check env st cc vn (some a) src = (.ok o, st')) (ha : a ≠ 0) :
    o.amount = some a
    ∧ (o.should_charge_vat = false →
        o.vat_amount = some (pyRound 2 (a * 0))
        ∧ o.amount_with_vat = some (a + a * 0)
        ∧ o.exchanged_amount_with_vat =
            some (pyRound 2 ((a + a * 0) * o.exchange_rate)))
    ∧ (∀ vr : ℚ, o.should_charge_vat = true → o.vat_rate = some vr →
        o.vat_amount = some (pyRound 2 (a * (vr / 100)))
        ∧ o.amount_with_vat = some (a + a * (vr / 100))
        ∧ o.exchanged_amount_with_vat =
            some (pyRound 2 ((a + a * (vr / 100)) * o.exchange_rate))) := by
  simp only [check] at h
  split at h
  · simp at h
  · split at h
    · simp at h
    · split at h
      · simp at h
      · split at h
        · simp at h
        · split at h
          · simp at h
          · split at h
            · simp at h
            · rename_i rate heq
              simp only [Prod.mk.injEq, Except.ok.injEq] at h
              obtain ⟨ho, hst⟩ := h
              subst ho
              split at heq
              · split at heq
                · simp at heq
                · simp only [Except.ok.injEq] at heq
                  subst heq
                  refine ⟨rfl, ?_, ?_⟩
                  · intro hf
                    simp_all
                  · intro vr h1 h2
                    simp only [Option.some.injEq] at h2
                    subst h2
                    exact ⟨rfl, rfl, rfl⟩
              · simp only [Except.ok.injEq] at heq
                subst heq
                refine ⟨rfl, fun hf => ⟨rfl, rfl, rfl⟩, ?_⟩
                intro vr h1 h2
                simp_all

/-- Witness for the amended C4: the concrete call
`check env0 st0 "FR" none (some 100) "EUR"` returns `oW`, whose amount
fields obey the three formulas at rate 20. -/
theorem c4_amended_witness :
    oW.vat_amount = some (pyRound 2 (100 * ((20 : ℚ) / 100)))
    ∧ oW.amount_with_vat = some (100 + 100 * ((20 : ℚ) / 100))
    ∧ oW.exchanged_amount_with_vat =
        some (pyRound 2 ((100 + 100 * ((20 : ℚ) / 100)) * oW.exchange_rate)) :=
  (c4_amended_amount_formulas env0 st0 "FR" none 100 "EUR" oW stW (by rfl)
    (by norm_num)).2.2 20 rfl rfl
